import Mathlib

/-!
Verification of the nanopolish pore-model representation
(`src/nanopolish_poremodel.cpp`).

The numeric type of the C++ code (`double`/`float`) is embedded as an
arbitrary `Field α` (instantiated with `ℚ` for concrete evaluations); the
transcendental functions `log` and `sqrt` are passed as abstract functions
`lg sq : α → α`, since every property below only relates their outputs to
their inputs, never uses analytic facts about them.
-/

/-- Modelled from the spec: the base per-k-mer parameter record
(`PoreModelStateParams`, declared in the header `nanopolish_poremodel.h`
which is not part of the visible sources).  Spec §3 lists the four stored
Gaussian/variability parameters plus the derived `sd_lambda` field. -/
structure PoreModelStateParams (α : Type) where
  level_mean : α
  level_stdv : α
  sd_mean : α
  sd_stdv : α
  sd_lambda : α
deriving DecidableEq

/-- Modelled from the spec: the scaled per-k-mer record (spec §3
`ScaledKmerState`); its seven fields are exactly the ones assigned in
`PoreModel::bake_gaussian_parameters` (lines 27-36). -/
structure ScaledKmerState (α : Type) where
  level_mean : α
  level_stdv : α
  sd_mean : α
  sd_lambda : α
  sd_stdv : α
  level_log_stdv : α
  sd_log_lambda : α
deriving DecidableEq

/-- Modelled from the spec: the compatibility record stored in
`scaled_params` (its three fields are the ones assigned at lines 39-41 of
`bake_gaussian_parameters`). -/
structure GaussianParameters (α : Type) where
  mean : α
  stdv : α
  log_stdv : α
deriving DecidableEq

/-- The pore-model aggregate (class `PoreModel`): k-mer length, display
name, persisted `shift_offset`, the six per-read calibration coefficients,
the base state table, the two derived containers and the `is_scaled`
flag.  Field list follows the uses in `nanopolish_poremodel.cpp`. -/
structure PoreModel (α : Type) where
  k : Nat
  name : String
  shift_offset : α
  shift : α
  scale : α
  drift : α
  var : α
  scale_sd : α
  var_sd : α
  states : List (PoreModelStateParams α)
  scaled_states : List (ScaledKmerState α)
  scaled_params : List (GaussianParameters α)
  is_scaled : Bool
deriving DecidableEq

/-- Line 24 of `bake_gaussian_parameters`: recompute the derived
`sd_lambda` field of one base state,
`states[i].sd_lambda = pow(states[i].sd_mean, 3.0) / pow(states[i].sd_stdv, 2.0)`. -/
def bakeBase {α : Type} [Field α] (s : PoreModelStateParams α) : PoreModelStateParams α :=
  { s with sd_lambda := s.sd_mean ^ 3 / s.sd_stdv ^ 2 }

/-- Lines 27-36 of `bake_gaussian_parameters`: produce the scaled state of
one base state (whose `sd_lambda` has already been recomputed) from the six
calibration coefficients; `lg` and `sq` stand for `log` and `sqrt`. -/
def scaleState {α : Type} [Field α] (lg sq : α → α)
    (scale shift var scale_sd var_sd : α)
    (s : PoreModelStateParams α) : ScaledKmerState α :=
  { level_mean := s.level_mean * scale + shift
  , level_stdv := s.level_stdv * var
  , sd_mean := s.sd_mean * scale_sd
  , sd_lambda := s.sd_lambda * var_sd
  , sd_stdv := sq ((s.sd_mean * scale_sd) ^ 3 / (s.sd_lambda * var_sd))
  , level_log_stdv := lg (s.level_stdv * var)
  , sd_log_lambda := lg (s.sd_lambda * var_sd) }

/-- Lines 39-41 of `bake_gaussian_parameters`: the compatibility entry of
`scaled_params` copied from a scaled state. -/
def gaussOf {α : Type} (t : ScaledKmerState α) : GaussianParameters α :=
  { mean := t.level_mean, stdv := t.level_stdv, log_stdv := t.level_log_stdv }

/-- Embedding of `PoreModel::bake_gaussian_parameters` (lines 16-44): resize the two
derived containers to `states.size()`, then for every rank recompute the
base `sd_lambda`, fill the scaled state and the compatibility entry, and
finally set `is_scaled = true`.  Since the loop overwrites every field of
every entry of both derived containers, the resize-then-overwrite loop is
embedded as `List.map`. -/
def bake_gaussian_parameters {α : Type} [Field α] (lg sq : α → α)
    (m : PoreModel α) : PoreModel α :=
  let new_states := m.states.map bakeBase
  let new_scaled := new_states.map (scaleState lg sq m.scale m.shift m.var m.scale_sd m.var_sd)
  { m with states := new_states
         , scaled_states := new_scaled
         , scaled_params := new_scaled.map gaussOf
         , is_scaled := true }

/-- Projection to the four stored base parameters of a `KmerState`. -/
def baseQuad {α : Type} (s : PoreModelStateParams α) : α × α × α × α :=
  (s.level_mean, s.level_stdv, s.sd_mean, s.sd_stdv)

/-- Modelled from the spec: the external alphabet/k-mer indexing service
(spec §6) — `get_num_strings k = A^k`, `kmer_rank` maps a k-mer string to
its rank, `base i` is the i-th symbol, `lexicographic_next` advances a
k-mer string in enumeration order.  Its implementation is not among the
visible sources; it enters the embedding as an abstract record. -/
structure Alphabet where
  get_num_strings : Nat → Nat
  kmer_rank : String → Nat → Nat
  base : Nat → Char
  lexicographic_next : String → String

/-- One line of a text model file, in the structured form the line loop of
`PoreModel::PoreModel(const std::string, const Alphabet&)` distinguishes:
a `#model_name` header, a `#shift_offset` header, any other skipped header
line (leading `#` or leading `kmer`), or a data line
`<kmer> <level_mean> <level_stdv> <sd_mean> <sd_stdv>`. -/
inductive ModelLine (α : Type) where
  | modelName (s : String)
  | shiftOffsetLine (v : α)
  | comment
  | data (kmer : String) (level_mean level_stdv sd_mean sd_stdv : α)
deriving DecidableEq

/-- Outcome of the text constructor.  The source checks
`assert(ninserted == states.size())` at line 95, so a count mismatch is an
assertion failure (`assertAbort`).  The `validationError` constructor
exists to state the spec's expected recoverable failure mode; the embedded
constructor never produces it, mirroring the absence of any throw path in
the source. -/
inductive TextModelResult (α : Type) where
  | ok (m : PoreModel α)
  | assertAbort
  | validationError
deriving DecidableEq

/-- The loop state of the text constructor: the header-declared `name` and
`shift_offset`, the `firstKmer` flag, the k-mer length `k`, the state
table and the insertion counter `ninserted`. -/
structure ParseState (α : Type) where
  name : String
  shift_offset : α
  firstKmer : Bool
  k : Nat
  states : List (PoreModelStateParams α)
  ninserted : Nat
deriving DecidableEq

/-- A default-constructed `PoreModelStateParams` (produced by
`states.resize`).  The C++ members are left indeterminate; the embedding
carries the indeterminate value as an explicit `junk` parameter. -/
def defaultParams {α : Type} (junk : α) : PoreModelStateParams α :=
  ⟨junk, junk, junk, junk, junk⟩

/-- Loop state at entry of the text constructor: `name` default-constructed
empty, `shift_offset = 0.0f` (line 55), `firstKmer = true`, no states,
`ninserted = 0`; `k` is an uninitialised member, embedded as 0 (it is
always overwritten before use by the first data line). -/
def initParseState (α : Type) [Field α] : ParseState α :=
  { name := "", shift_offset := 0, firstKmer := true, k := 0, states := [], ninserted := 0 }

/-- One iteration of the line loop (lines 57-93): header lines set `name`
or `shift_offset` and are skipped; a data line on first encounter fixes
`k` from the k-mer length and resizes the table to
`alphabet.get_num_strings(k)`, then every data line writes its parameters
into slot `alphabet.kmer_rank(kmer, k)` (the read `sd_lambda` member is
never assigned, so it keeps the indeterminate value `junk`) and increments
`ninserted`. -/
def parseLine {α : Type} [Field α] (a : Alphabet) (junk : α)
    (st : ParseState α) : ModelLine α → ParseState α
  | .modelName s => { st with name := s }
  | .shiftOffsetLine v => { st with shift_offset := v }
  | .comment => st
  | .data kmer lm ls sm ss =>
    let st1 := if st.firstKmer then
        { st with k := kmer.length
                , states := List.replicate (a.get_num_strings kmer.length) (defaultParams junk)
                , firstKmer := false }
      else st
    { st1 with states := st1.states.set (a.kmer_rank kmer st1.k) ⟨lm, ls, sm, ss, junk⟩
             , ninserted := st1.ninserted + 1 }

/-- Embedding of `PoreModel::PoreModel(const std::string, const Alphabet&)`
(lines 46-96): fold the line loop over the file, then check
`assert(ninserted == states.size())`.  On success the resulting model
carries the parsed table; the six calibration coefficients are
uninitialised members (carried as `junk`), the scaled containers are empty
and the model is not baked. -/
def parseModel {α : Type} [Field α] (a : Alphabet) (junk : α)
    (lines : List (ModelLine α)) : TextModelResult α :=
  let st := lines.foldl (parseLine a junk) (initParseState α)
  if st.ninserted = st.states.length then
    .ok { k := st.k, name := st.name, shift_offset := st.shift_offset
        , shift := junk, scale := junk, drift := junk, var := junk
        , scale_sd := junk, var_sd := junk
        , states := st.states, scaled_states := [], scaled_params := []
        , is_scaled := false }
  else .assertAbort

/-- The state table of a successful text construction (empty otherwise). -/
def statesOf {α : Type} : TextModelResult α → List (PoreModelStateParams α)
  | .ok m => m.states
  | _ => []

/-- The "table" view of a model: k-mer length, name, shift offset and the
base state table — the data the text format serialises. -/
def tableOf {α : Type} (m : PoreModel α) :
    Nat × String × α × List (PoreModelStateParams α) :=
  (m.k, m.name, m.shift_offset, m.states)

/-- Lift of `tableOf` through a construction outcome. -/
def tableOfResult {α : Type} :
    TextModelResult α → Option (Nat × String × α × List (PoreModelStateParams α))
  | .ok m => some (tableOf m)
  | _ => none

/-- The concrete 4-symbol DNA alphabet used for concrete evaluations.
Modelled from the spec: the alphabet service (spec §6) with symbols
`A, C, G, T`, ranks in lexicographic (big-endian) order and the standard
lexicographic successor. -/
def dnaBase : Nat → Char
  | 0 => 'A'
  | 1 => 'C'
  | 2 => 'G'
  | _ => 'T'

/-- Rank of a single DNA symbol. -/
def dnaCharRank (c : Char) : Nat :=
  if c = 'A' then 0 else if c = 'C' then 1 else if c = 'G' then 2 else 3

/-- Rank of a DNA k-mer (first `k` characters, most significant first). -/
def dnaKmerRank (s : String) (k : Nat) : Nat :=
  (s.data.take k).foldl (fun acc c => 4 * acc + dnaCharRank c) 0

/-- Successor of a non-final DNA symbol. -/
def dnaSuccChar (c : Char) : Char :=
  if c = 'A' then 'C' else if c = 'C' then 'G' else 'T'

/-- Lexicographic successor on the reversed character list (increment the
last symbol, carrying past `T`). -/
def dnaNextAux : List Char → List Char
  | [] => []
  | c :: rest => if c = 'T' then 'A' :: dnaNextAux rest else dnaSuccChar c :: rest

/-- Lexicographic successor of a DNA k-mer string. -/
def dnaLexNext (s : String) : String :=
  String.mk (dnaNextAux s.data.reverse).reverse

/-- The DNA alphabet as an `Alphabet` record. -/
def dnaAlphabet : Alphabet :=
  { get_num_strings := fun k => 4 ^ k
  , kmer_rank := dnaKmerRank
  , base := dnaBase
  , lexicographic_next := dnaLexNext }

/-- Enumeration of k-mer strings in write order: start from the first
symbol repeated `k` times, advance with `lexicographic_next`. -/
def kmerEnum (a : Alphabet) (k : Nat) : Nat → String
  | 0 => String.mk (List.replicate k (a.base 0))
  | i + 1 => a.lexicographic_next (kmerEnum a k i)

/-- A 2-mer text table with only 15 (distinct) data lines — one short of
the `4^2 = 16` slots. -/
def file15 : List (ModelLine ℚ) :=
  (List.range 15).map (fun i => ModelLine.data (kmerEnum dnaAlphabet 2 i) 1 1 1 1)

/-- A 2-mer text table with 16 data lines in which the k-mer `AA` occurs
twice (the second time with different parameters) and the k-mer `TT`
(rank 15) is missing: a duplicate and an omission that balance the
insertion counter. -/
def fileDup : List (ModelLine ℚ) :=
  (List.range 15).map (fun i => ModelLine.data (kmerEnum dnaAlphabet 2 i) 1 1 1 1)
    ++ [ModelLine.data "AA" 9 9 9 9]

/-- A valid 1-mer text table (4 data lines) whose rows have
`sd_mean^3 / sd_stdv^2` different from any fixed default: row `A` has
`sd_mean = 2, sd_stdv = 1` and row `C` has `sd_mean = 3, sd_stdv = 1`. -/
def fileMom : List (ModelLine ℚ) :=
  [ ModelLine.modelName "m"
  , ModelLine.data "A" 1 1 2 1
  , ModelLine.data "C" 1 1 3 1
  , ModelLine.data "G" 1 1 1 1
  , ModelLine.data "T" 1 1 1 1 ]

/-- Data-row emission loop of `PoreModel::write` (lines 159-164): one row
per rank in ascending rank order, threading `curr_kmer` through
`alphabet.lexicographic_next`. -/
def writeGo {α : Type} (a : Alphabet) :
    List (PoreModelStateParams α) → String → List (ModelLine α)
  | [], _ => []
  | s :: rest, curr =>
      ModelLine.data curr s.level_mean s.level_stdv s.sd_mean s.sd_stdv
        :: writeGo a rest (a.lexicographic_next curr)

/-- Embedding of `PoreModel::write` (lines 147-166): emit the `#model_name` header
(falling back to the model's `name` when the override is empty), the
`#shift_offset` header, then one data row per rank, the row of rank 0
carrying `base(0)` repeated `k` times. -/
def write {α : Type} (a : Alphabet) (m : PoreModel α) (modelname : String) :
    List (ModelLine α) :=
  let outmodelname := if modelname = "" then m.name else modelname
  ModelLine.modelName outmodelname
    :: ModelLine.shiftOffsetLine m.shift_offset
    :: writeGo a m.states (String.mk (List.replicate m.k (a.base 0)))

/-- Write the elements of a list into `base` at consecutive indices
starting at `j` — the net effect on the state table of a run of data-line
insertions at ranks `j, j+1, ...`. -/
def setAll {α : Type} :
    List (PoreModelStateParams α) → Nat → List (PoreModelStateParams α)
      → List (PoreModelStateParams α)
  | base, _, [] => base
  | base, j, s :: rest => setAll (base.set j s) (j + 1) rest

/-- A concrete valid 1-mer model over `ℚ` (4 states, `sd_lambda` at the
text-parse placeholder 0) used to instantiate the round-trip theorem. -/
def mW : PoreModel ℚ :=
  { k := 1, name := "w", shift_offset := 2
  , shift := 0, scale := 0, drift := 0, var := 0, scale_sd := 0, var_sd := 0
  , states := [⟨1, 2, 3, 4, 0⟩, ⟨5, 6, 7, 8, 0⟩, ⟨9, 10, 11, 12, 0⟩, ⟨13, 14, 15, 16, 0⟩]
  , scaled_states := [], scaled_params := [], is_scaled := false }

/-- Substring containment on character lists — the
`temp_name.find(leader) != npos` test of line 136.  The constructor only
uses whether the leader was found, never at which position. -/
def occursInAux (p : List Char) : List Char → Bool
  | [] => p.isEmpty
  | c :: rest => p.isPrefixOf (c :: rest) || occursInAux p rest

/-- The fixed installation-path marker of line 134. -/
def leader : String := "/opt/chimaera/model/"

/-- The character substitution of line 144 (`std::replace(name, '/', '_')`). -/
def slashToUnderscore (c : Char) : Char := if c = '/' then '_' else c

/-- Name derivation of the fast5 constructor (lines 132-144): when the
leader occurs anywhere in the recorded model path the code keeps
`temp_name.substr(leader.size())` — the path minus its FIRST
`leader.size()` characters, regardless of where the leader occurred —
otherwise the path verbatim; then every `/` is rewritten to `_`. -/
def derive_name (temp_name : String) : String :=
  String.mk ((if occursInAux leader.data temp_name.data
              then temp_name.data.drop leader.data.length
              else temp_name.data).map slashToUnderscore)

/-- Modelled from the spec: the claim's reading of the name derivation
(spec §4.2) — strip the leader only when it is a prefix of the path, else
use the path verbatim; then rewrite every `/` to `_`.  Declared for
comparison against `derive_name`. -/
def spec_model_name (temp_name : String) : String :=
  String.mk ((if leader.data.isPrefixOf temp_name.data
              then temp_name.data.drop leader.data.length
              else temp_name.data).map slashToUnderscore)

/-- One row of the container's embedded model (`fast5::Model_Entry` of the
external container service; spec §6). -/
structure Model_Entry (α : Type) where
  kmer : String
  level_mean : α
  level_stdv : α
  sd_mean : α
  sd_stdv : α
deriving DecidableEq

/-- Modelled from the spec: the raw-signal container service (spec §6) —
the embedded per-k-mer table, the per-read calibration coefficients and
the recorded model-file path for one strand. -/
structure Fast5Model (α : Type) where
  entries : List (Model_Entry α)
  drift : α
  scale : α
  scale_sd : α
  shift : α
  var : α
  var_sd : α
  model_file : String
deriving DecidableEq

/-- State table built by the copy loop of the fast5 constructor
(lines 103-115): `get_num_strings k` default-constructed entries,
overwritten at `kmer_rank(curr.kmer, k)` with the four copied parameters;
the aggregate initialiser `{lm, ls, sm, ss}` value-initialises the
remaining `sd_lambda` member to 0. -/
def fast5States {α : Type} [Field α] (a : Alphabet) (junk : α)
    (f : Fast5Model α) (k : Nat) : List (PoreModelStateParams α) :=
  f.entries.foldl
    (fun acc e => acc.set (a.kmer_rank e.kmer k)
      ⟨e.level_mean, e.level_stdv, e.sd_mean, e.sd_stdv, 0⟩)
    (List.replicate (a.get_num_strings k) (defaultParams junk))

/-- Body of the fast5 constructor after the size assertion: assemble the
pre-bake model (`shift_offset = 0.0f` at line 127, coefficients from
`get_model_parameters` at lines 118-124), bake it (line 130), then set
the shortened name (lines 132-144). -/
def fromFast5Core {α : Type} [Field α] (lg sq : α → α) (a : Alphabet) (junk : α)
    (f : Fast5Model α) (k : Nat) : PoreModel α :=
  let baked := bake_gaussian_parameters lg sq
    { k := k, name := "", shift_offset := 0
    , shift := f.shift, scale := f.scale, drift := f.drift
    , var := f.var, scale_sd := f.scale_sd, var_sd := f.var_sd
    , states := fast5States a junk f k
    , scaled_states := [], scaled_params := [], is_scaled := false }
  { baked with name := derive_name f.model_file }

/-- Embedding of `PoreModel::PoreModel(fast5::File*, const size_t, const Alphabet&)`
(lines 98-145): `k = strlen(model[0].kmer)` (an empty embedded model is
outside the modelled domain), the size assertion
`assert(states.size() == model.size())` embedded as an `Option` guard,
then the core construction. -/
def fromFast5 {α : Type} [Field α] (lg sq : α → α) (a : Alphabet) (junk : α)
    (f : Fast5Model α) : Option (PoreModel α) :=
  match f.entries with
  | [] => none
  | e0 :: _ =>
      if a.get_num_strings e0.kmer.length = f.entries.length then
        some (fromFast5Core lg sq a junk f e0.kmer.length)
      else none

/-- Embedding of `PoreModel::update_states(const std::vector<PoreModelStateParams>&)`
(lines 175-181): install the new base table, then re-bake exactly when the
model is currently scaled. -/
def update_states_list {α : Type} [Field α] (lg sq : α → α) (m : PoreModel α)
    (otherstates : List (PoreModelStateParams α)) : PoreModel α :=
  let m1 := { m with states := otherstates }
  if m1.is_scaled then bake_gaussian_parameters lg sq m1 else m1

/-- Embedding of `PoreModel::update_states(const PoreModel&)` (lines 168-173): take `k`
from the replacing table, fold the replacing table's `shift_offset`
additively into the current `shift` coefficient, then install its
states. -/
def update_states {α : Type} [Field α] (lg sq : α → α)
    (m other : PoreModel α) : PoreModel α :=
  update_states_list lg sq
    { m with k := other.k, shift := m.shift + other.shift_offset } other.states

/-- The empty pore model over `ℚ` (an `Option.getD` default). -/
def emptyModel : PoreModel ℚ :=
  { k := 0, name := "", shift_offset := 0, shift := 0, scale := 0, drift := 0
  , var := 0, scale_sd := 0, var_sd := 0, states := [], scaled_states := []
  , scaled_params := [], is_scaled := false }

/-- A concrete container model (1-mers) whose recorded path contains the
leader midway rather than as a prefix: `/x/opt/chimaera/model/r9`. -/
def f0 : Fast5Model ℚ :=
  { entries := [⟨"A", 1, 1, 2, 1⟩, ⟨"C", 1, 1, 3, 1⟩, ⟨"G", 1, 1, 1, 1⟩, ⟨"T", 1, 1, 1, 1⟩]
  , drift := 0, scale := 1, scale_sd := 1, shift := 0, var := 1, var_sd := 1
  , model_file := "/x/opt/chimaera/model/r9" }

/-- A concrete container model used to instantiate the
container-construction theorems. -/
def fW2 : Fast5Model ℚ :=
  { entries := [⟨"A", 2, 1, 2, 1⟩, ⟨"C", 3, 1, 3, 1⟩, ⟨"G", 4, 1, 4, 1⟩, ⟨"T", 5, 1, 5, 1⟩]
  , drift := 0, scale := 2, scale_sd := 1, shift := 1, var := 1, var_sd := 1
  , model_file := "/opt/chimaera/model/r9_template" }

/-- The model the fast5 constructor produces on `fW2`. -/
def mF2 : PoreModel ℚ :=
  (fromFast5 (fun x => x) (fun x => x) dnaAlphabet 0 fW2).getD emptyModel

/-- A concrete unbaked model with `shift_offset = 3` for the
`update_states` counterexample. -/
def m4 : PoreModel ℚ :=
  { k := 2, name := "a", shift_offset := 3, shift := 1, scale := 0, drift := 0
  , var := 0, scale_sd := 0, var_sd := 0
  , states := [], scaled_states := [], scaled_params := [], is_scaled := false }

/-- A replacing model with `shift_offset = 5`. -/
def o4 : PoreModel ℚ :=
  { m4 with k := 3, shift_offset := 5, name := "b" }

theorem bakeBase_idem {α : Type} [Field α] (s : PoreModelStateParams α) :
    bakeBase (bakeBase s) = bakeBase s := by
  cases s; rfl

theorem bake_idem {α : Type} [Field α] (lg sq : α → α) (m : PoreModel α) :
    bake_gaussian_parameters lg sq (bake_gaussian_parameters lg sq m)
      = bake_gaussian_parameters lg sq m := by
  cases m with
  | mk k nm so sh sc dr va ssd vsd st zs zp isc =>
    simp [bake_gaussian_parameters, List.map_map, Function.comp_def, bakeBase_idem]

/-- Claim C5: `bake()` is idempotent — invoking it twice with unchanged
base parameters and coefficients produces the same model (in particular
identical `ScaledKmerState` values) as a single invocation. -/
theorem bake_idempotent {α : Type} [Field α] (lg sq : α → α) (m : PoreModel α) :
    bake_gaussian_parameters lg sq (bake_gaussian_parameters lg sq m)
      = bake_gaussian_parameters lg sq m :=
  bake_idem lg sq m

/-- Claim C9: `bake()` leaves the four stored base parameters of every base
state unchanged, and leaves `k`, `name`, `shift_offset` and all six
calibration coefficients unchanged; the only base-state field it writes is
the derived `sd_lambda` (which it sets to `sd_mean^3 / sd_stdv^2`). -/
theorem bake_frame {α : Type} [Field α] (lg sq : α → α) (m : PoreModel α) :
    (bake_gaussian_parameters lg sq m).k = m.k
  ∧ (bake_gaussian_parameters lg sq m).name = m.name
  ∧ (bake_gaussian_parameters lg sq m).shift_offset = m.shift_offset
  ∧ (bake_gaussian_parameters lg sq m).shift = m.shift
  ∧ (bake_gaussian_parameters lg sq m).scale = m.scale
  ∧ (bake_gaussian_parameters lg sq m).drift = m.drift
  ∧ (bake_gaussian_parameters lg sq m).var = m.var
  ∧ (bake_gaussian_parameters lg sq m).scale_sd = m.scale_sd
  ∧ (bake_gaussian_parameters lg sq m).var_sd = m.var_sd
  ∧ (bake_gaussian_parameters lg sq m).states.map baseQuad = m.states.map baseQuad
  ∧ (bake_gaussian_parameters lg sq m).states.map (fun s => s.sd_lambda)
      = m.states.map (fun s => s.sd_mean ^ 3 / s.sd_stdv ^ 2) := by
  refine ⟨rfl, rfl, rfl, rfl, rfl, rfl, rfl, rfl, rfl, ?_, ?_⟩ <;>
    simp [bake_gaussian_parameters, List.map_map, Function.comp_def, baseQuad, bakeBase]

/-- Claim C3: after `bake()` every rank satisfies the scaling formulas:
`level_mean' = level_mean*scale + shift`, `level_stdv' = level_stdv*var`,
`sd_mean' = sd_mean*scale_sd`, `sd_lambda' = sd_lambda*var_sd` (with
`sd_lambda` the freshly recomputed base value), `sd_stdv' =
sqrt(sd_mean'^3 / sd_lambda')`, and the cached values satisfy
`level_log_stdv = log level_stdv'` and `sd_log_lambda = log sd_lambda'`.
Stated through `·[i]?` so that out-of-range ranks are vacuous. -/
theorem bake_scaled_state_formulas {α : Type} [Field α] (lg sq : α → α)
    (m : PoreModel α) (i : Nat) :
    ((bake_gaussian_parameters lg sq m).scaled_states[i]?).map (fun t => t.level_mean)
        = (m.states[i]?).map (fun s => s.level_mean * m.scale + m.shift)
  ∧ ((bake_gaussian_parameters lg sq m).scaled_states[i]?).map (fun t => t.level_stdv)
        = (m.states[i]?).map (fun s => s.level_stdv * m.var)
  ∧ ((bake_gaussian_parameters lg sq m).scaled_states[i]?).map (fun t => t.sd_mean)
        = (m.states[i]?).map (fun s => s.sd_mean * m.scale_sd)
  ∧ ((bake_gaussian_parameters lg sq m).scaled_states[i]?).map (fun t => t.sd_lambda)
        = ((bake_gaussian_parameters lg sq m).states[i]?).map (fun s => s.sd_lambda * m.var_sd)
  ∧ ((bake_gaussian_parameters lg sq m).scaled_states[i]?).map (fun t => t.sd_stdv)
        = ((bake_gaussian_parameters lg sq m).scaled_states[i]?).map
            (fun t => sq (t.sd_mean ^ 3 / t.sd_lambda))
  ∧ ((bake_gaussian_parameters lg sq m).scaled_states[i]?).map (fun t => t.level_log_stdv)
        = ((bake_gaussian_parameters lg sq m).scaled_states[i]?).map (fun t => lg t.level_stdv)
  ∧ ((bake_gaussian_parameters lg sq m).scaled_states[i]?).map (fun t => t.sd_log_lambda)
        = ((bake_gaussian_parameters lg sq m).scaled_states[i]?).map (fun t => lg t.sd_lambda) := by
  cases h : m.states[i]? <;>
    simp [bake_gaussian_parameters, List.getElem?_map, h, scaleState, bakeBase]

/-- Claim C10: after every invocation of `bake()` the compatibility
container `scaled_params` is consistent with `scaled_states`: entrywise
`mean`, `stdv` and `log_stdv` equal `level_mean`, `level_stdv` and
`level_log_stdv`, and both containers are sized exactly to the number of
base states. -/
theorem scaled_params_consistency {α : Type} [Field α] (lg sq : α → α)
    (m : PoreModel α) (i : Nat) :
    (bake_gaussian_parameters lg sq m).scaled_params.length
        = (bake_gaussian_parameters lg sq m).states.length
  ∧ (bake_gaussian_parameters lg sq m).scaled_states.length
        = (bake_gaussian_parameters lg sq m).states.length
  ∧ ((bake_gaussian_parameters lg sq m).scaled_params[i]?).map (fun g => g.mean)
        = ((bake_gaussian_parameters lg sq m).scaled_states[i]?).map (fun t => t.level_mean)
  ∧ ((bake_gaussian_parameters lg sq m).scaled_params[i]?).map (fun g => g.stdv)
        = ((bake_gaussian_parameters lg sq m).scaled_states[i]?).map (fun t => t.level_stdv)
  ∧ ((bake_gaussian_parameters lg sq m).scaled_params[i]?).map (fun g => g.log_stdv)
        = ((bake_gaussian_parameters lg sq m).scaled_states[i]?).map (fun t => t.level_log_stdv) := by
  refine ⟨?_, ?_, ?_, ?_, ?_⟩ <;>
    simp [bake_gaussian_parameters, List.getElem?_map, gaussOf, scaleState,
      Function.comp_def]

/-- Claim C1 (amended): when after all lines are consumed the insertion
counter differs from the table size, the text constructor fails through
the assertion `assert(ninserted == states.size())` — a process abort, not
a recoverable error (no model is returned); and no input whatsoever makes
the constructor surface a recoverable `validationError`. -/
theorem parse_count_mismatch_aborts {α : Type} [Field α] (a : Alphabet) (junk : α)
    (lines : List (ModelLine α))
    (h : (lines.foldl (parseLine a junk) (initParseState α)).ninserted
          ≠ (lines.foldl (parseLine a junk) (initParseState α)).states.length) :
    parseModel a junk lines = .assertAbort
  ∧ ∀ lines2 : List (ModelLine α), parseModel a junk lines2 ≠ .validationError := by
  constructor
  · simp only [parseModel]
    rw [if_neg h]
  · intro lines2
    simp only [parseModel]
    split <;> simp

/-- Witness for C1: the 15-line 2-mer table indeed ends with 15 inserted
entries against a 16-slot table, and the constructor aborts on it. -/
theorem parse_count_mismatch_aborts_witness :
    parseModel dnaAlphabet (0 : ℚ) file15 = .assertAbort :=
  (parse_count_mismatch_aborts dnaAlphabet 0 file15 (by decide)).1

/-- Counterexample to C1 as stated: on a 2-mer table with 15 data lines
the constructor does not fail with a recoverable `validationError` — it
hits the assertion and aborts the process. -/
theorem parse_fifteen_lines_cex :
    parseModel dnaAlphabet (0 : ℚ) file15 = .assertAbort
  ∧ parseModel dnaAlphabet (0 : ℚ) file15 ≠ .validationError := by
  decide

/-- Counterexample to C2 as stated: immediately after construction from
the valid 1-mer text table `fileMom` the base derived field does not
satisfy `sd_lambda = sd_mean^3 / sd_stdv^2`: the text constructor never
recomputes `sd_lambda` (it is not even read from the file), so slot `A`
keeps the indeterminate member value (embedded as 0) although
`sd_mean^3 / sd_stdv^2 = 8` there. -/
theorem parse_sd_lambda_stale_cex :
    ((statesOf (parseModel dnaAlphabet (0 : ℚ) fileMom))[0]?).map (fun s => s.sd_lambda)
        = some 0
  ∧ ((statesOf (parseModel dnaAlphabet (0 : ℚ) fileMom))[0]?).map
        (fun s => s.sd_mean ^ 3 / s.sd_stdv ^ 2) = some 8
  ∧ (some (0 : ℚ) ≠ some 8) := by
  have h : (statesOf (parseModel dnaAlphabet (0 : ℚ) fileMom))[0]? = some ⟨1, 1, 2, 1, 0⟩ := by
    decide
  refine ⟨by rw [h]; rfl, by rw [h]; simp; norm_num, by norm_num⟩

/-- Claim C7 (code bug evaluated): the 16-line 2-mer table `fileDup`, in
which `AA` appears twice and `TT` never, is accepted by the text
constructor — no abort and no recoverable error — and the returned model
has the duplicate's parameters at rank 0 while rank 15 (`TT`) silently
keeps default-constructed (indeterminate) entries. -/
theorem parse_duplicate_masks_missing :
    parseModel dnaAlphabet (0 : ℚ) fileDup ≠ .assertAbort
  ∧ parseModel dnaAlphabet (0 : ℚ) fileDup ≠ .validationError
  ∧ (statesOf (parseModel dnaAlphabet (0 : ℚ) fileDup)).length = 16
  ∧ (statesOf (parseModel dnaAlphabet (0 : ℚ) fileDup))[0]? = some ⟨9, 9, 9, 9, 0⟩
  ∧ (statesOf (parseModel dnaAlphabet (0 : ℚ) fileDup))[15]? = some (defaultParams 0) := by
  decide

theorem kmerEnum_zero_length (a : Alphabet) (k : Nat) : (kmerEnum a k 0).length = k := by
  simp [kmerEnum, String.length]

theorem foldl_writeGo {α : Type} [Field α] (a : Alphabet) (junk : α) (k : Nat) :
    ∀ (l : List (PoreModelStateParams α)) (j : Nat) (st : ParseState α),
      st.firstKmer = false → st.k = k →
      (∀ s ∈ l, s.sd_lambda = junk) →
      (∀ i, i < l.length → a.kmer_rank (kmerEnum a k (j + i)) k = j + i) →
      (writeGo a l (kmerEnum a k j)).foldl (parseLine a junk) st
        = { st with states := setAll st.states j l
                  , ninserted := st.ninserted + l.length } := by
  intro l
  induction l with
  | nil =>
    intro j st h1 h2 h3 h4
    simp [writeGo, setAll]
  | cons s rest ih =>
    intro j st h1 h2 h3 h4
    obtain ⟨lm, ls, sm, ss, sl⟩ := s
    have hsl : sl = junk := by
      have := h3 ⟨lm, ls, sm, ss, sl⟩ (List.mem_cons_self _ _)
      simpa using this
    rw [hsl]
    have hrank0 : a.kmer_rank (kmerEnum a k j) k = j := by
      simpa using h4 0 (by simp)
    have hstep : parseLine a junk st (ModelLine.data (kmerEnum a k j) lm ls sm ss)
        = { st with states := st.states.set j ⟨lm, ls, sm, ss, junk⟩
                  , ninserted := st.ninserted + 1 } := by
      simp [parseLine, h1, h2, hrank0]
    have hnext : writeGo a (⟨lm, ls, sm, ss, junk⟩ :: rest) (kmerEnum a k j)
        = ModelLine.data (kmerEnum a k j) lm ls sm ss
            :: writeGo a rest (kmerEnum a k (j + 1)) := rfl
    rw [hnext, List.foldl_cons, hstep,
      ih (j + 1)
        { st with states := st.states.set j ⟨lm, ls, sm, ss, junk⟩
                , ninserted := st.ninserted + 1 }
        h1 h2 (fun s hs => h3 s (List.mem_cons_of_mem _ hs))
        (fun i hi => by
          have h5 := h4 (i + 1) (by simpa using Nat.succ_lt_succ hi)
          have h6 : j + (i + 1) = j + 1 + i := by omega
          rw [h6] at h5
          exact h5)]
    simp [setAll]
    omega

theorem setAll_getElem? {α : Type} (l : List (PoreModelStateParams α)) :
    ∀ (base : List (PoreModelStateParams α)) (j : Nat),
      j + l.length ≤ base.length →
      ∀ n, (setAll base j l)[n]? =
        if j ≤ n ∧ n < j + l.length then l[n - j]? else base[n]? := by
  induction l with
  | nil =>
    intro base j hb n
    simp only [setAll, List.length_nil, Nat.add_zero]
    rw [if_neg (by omega)]
  | cons s rest ih =>
    intro base j hb n
    have hjb : j < base.length := by
      simp only [List.length_cons] at hb
      omega
    rw [setAll, ih (base.set j s) (j + 1)
      (by simp only [List.length_set, List.length_cons] at hb ⊢; omega) n]
    by_cases hn : n = j
    · subst hn
      rw [if_neg (by omega), if_pos (by simp only [List.length_cons]; omega)]
      have hset : (base.set n s)[n]? = some s := by
        rw [List.getElem?_set_self]
        simp [hjb]
      rw [hset]
      simp
    · by_cases hge : j + 1 ≤ n ∧ n < j + 1 + rest.length
      · rw [if_pos hge, if_pos (by simp only [List.length_cons]; omega)]
        have hnj : n - j = (n - (j + 1)) + 1 := by omega
        rw [hnj]
        simp
      · rw [if_neg hge, if_neg (by simp only [List.length_cons]; omega)]
        exact List.getElem?_set_ne (Ne.symm hn)

theorem setAll_replicate {α : Type} (l : List (PoreModelStateParams α))
    (d : PoreModelStateParams α) :
    setAll (List.replicate l.length d) 0 l = l := by
  apply List.ext_getElem?
  intro n
  rw [setAll_getElem? l (List.replicate l.length d) 0 (by simp) n]
  by_cases h : n < l.length
  · simp [h]
  · rw [if_neg (by omega), List.getElem?_replicate, if_neg h, eq_comm]
    exact List.getElem?_eq_none (by omega)

/-- Claim C6: for every valid text table (a model whose state count equals
the alphabet size `A^k`, with the parse placeholder in every `sd_lambda`
slot, over an alphabet whose write-order k-mer enumeration is consistent
with `kmer_rank`), serialising with `write()` and re-parsing the emitted
file yields an identical table (`k`, `name`, `shift_offset` and all
states); the emitted structured file is a deterministic function of the
model and alphabet, so it is reproducible for a fixed alphabet. -/
theorem write_parse_roundtrip {α : Type} [Field α] (a : Alphabet) (junk : α)
    (m : PoreModel α)
    (hpos : 0 < m.states.length)
    (hlen : m.states.length = a.get_num_strings m.k)
    (hjunk : ∀ s ∈ m.states, s.sd_lambda = junk)
    (hrank : ∀ i, i < m.states.length → a.kmer_rank (kmerEnum a m.k i) m.k = i) :
    tableOfResult (parseModel a junk (write a m "")) = some (tableOf m) := by
  rcases hst : m.states with _ | ⟨s0, rest⟩
  · rw [hst] at hpos
    simp at hpos
  · obtain ⟨lm0, ls0, sm0, ss0, sl0⟩ := s0
    have hsl0 : sl0 = junk := by
      have := hjunk ⟨lm0, ls0, sm0, ss0, sl0⟩ (by rw [hst]; exact List.mem_cons_self _ _)
      simpa using this
    rw [hsl0] at hst
    have hk0 : (kmerEnum a m.k 0).length = m.k := kmerEnum_zero_length a m.k
    have hr0 : a.kmer_rank (kmerEnum a m.k 0) m.k = 0 := hrank 0 hpos
    have hwrite : write a m ""
        = ModelLine.modelName m.name
            :: ModelLine.shiftOffsetLine m.shift_offset
            :: writeGo a (⟨lm0, ls0, sm0, ss0, junk⟩ :: rest) (kmerEnum a m.k 0) := by
      simp only [write]
      rw [hst]
      rfl
    have hd1 : parseLine a junk
          { name := m.name, shift_offset := m.shift_offset, firstKmer := true
          , k := 0, states := ([] : List (PoreModelStateParams α)), ninserted := 0 }
          (ModelLine.data (kmerEnum a m.k 0) lm0 ls0 sm0 ss0)
        = { name := m.name, shift_offset := m.shift_offset, firstKmer := false
          , k := m.k
          , states := (List.replicate (a.get_num_strings m.k)
              (defaultParams junk)).set 0 ⟨lm0, ls0, sm0, ss0, junk⟩
          , ninserted := 1 } := by
      simp [parseLine, hk0, hr0]
    have hfold : (write a m "").foldl (parseLine a junk) (initParseState α)
        = { name := m.name, shift_offset := m.shift_offset, firstKmer := false
          , k := m.k
          , states := setAll ((List.replicate (a.get_num_strings m.k)
              (defaultParams junk)).set 0 ⟨lm0, ls0, sm0, ss0, junk⟩) 1 rest
          , ninserted := 1 + rest.length } := by
      rw [hwrite, List.foldl_cons, List.foldl_cons]
      have hst2 : parseLine a junk (parseLine a junk (initParseState α)
            (ModelLine.modelName m.name)) (ModelLine.shiftOffsetLine m.shift_offset)
          = { name := m.name, shift_offset := m.shift_offset, firstKmer := true
            , k := 0, states := ([] : List (PoreModelStateParams α)), ninserted := 0 } := rfl
      rw [hst2]
      have hw1 : writeGo a (⟨lm0, ls0, sm0, ss0, junk⟩ :: rest) (kmerEnum a m.k 0)
          = ModelLine.data (kmerEnum a m.k 0) lm0 ls0 sm0 ss0
              :: writeGo a rest (kmerEnum a m.k 1) := rfl
      rw [hw1, List.foldl_cons, hd1]
      rw [foldl_writeGo a junk m.k rest 1 _ rfl rfl
        (fun s hs => hjunk s (by rw [hst]; exact List.mem_cons_of_mem _ hs))
        (fun i hi => hrank (1 + i) (by rw [hst]; simp only [List.length_cons]; omega))]
    have hsetall : setAll ((List.replicate (a.get_num_strings m.k)
          (defaultParams junk)).set 0 ⟨lm0, ls0, sm0, ss0, junk⟩) 1 rest
        = ⟨lm0, ls0, sm0, ss0, junk⟩ :: rest := by
      have h1 : a.get_num_strings m.k = (⟨lm0, ls0, sm0, ss0, junk⟩ :: rest).length := by
        rw [← hlen, hst]
      have h2 : setAll ((List.replicate ((⟨lm0, ls0, sm0, ss0, junk⟩ :: rest).length)
            (defaultParams junk)).set 0 ⟨lm0, ls0, sm0, ss0, junk⟩) 1 rest
          = setAll (List.replicate ((⟨lm0, ls0, sm0, ss0, junk⟩ :: rest).length)
              (defaultParams junk)) 0 (⟨lm0, ls0, sm0, ss0, junk⟩ :: rest) := rfl
      rw [h1, h2]
      exact setAll_replicate (⟨lm0, ls0, sm0, ss0, junk⟩ :: rest) (defaultParams junk)
    simp only [parseModel, hfold, hsetall]
    rw [if_pos (by simp only [List.length_cons]; omega)]
    simp [tableOfResult, tableOf, hst]

/-- Witness for C6: the concrete 1-mer model `mW` over the DNA alphabet
round-trips through `write` and the text constructor. -/
theorem write_parse_roundtrip_witness :
    tableOfResult (parseModel dnaAlphabet (0 : ℚ) (write dnaAlphabet mW ""))
      = some (tableOf mW) :=
  write_parse_roundtrip dnaAlphabet 0 mW (by decide) (by decide) (by decide) (by decide)

theorem bake_name_update {α : Type} [Field α] (lg sq : α → α) (m : PoreModel α)
    (n : String) :
    bake_gaussian_parameters lg sq { m with name := n }
      = { bake_gaussian_parameters lg sq m with name := n } := by
  cases m with
  | mk k nm so sh sc dr va ssd vsd st zs zp isc => rfl

theorem fromFast5_eq_core {α : Type} [Field α] (lg sq : α → α) (a : Alphabet)
    (junk : α) (f : Fast5Model α) (m : PoreModel α)
    (h : fromFast5 lg sq a junk f = some m) :
    ∃ k, m = fromFast5Core lg sq a junk f k := by
  rcases hE : f.entries with _ | ⟨e0, es⟩ <;>
    simp only [fromFast5, hE] at h
  · exact absurd h (by simp)
  · by_cases hsz : a.get_num_strings e0.kmer.length = (e0 :: es).length
    · rw [if_pos hsz] at h
      exact ⟨e0.kmer.length, (Option.some.inj h).symm⟩
    · rw [if_neg hsz] at h
      exact absurd h (by simp)

theorem fromFast5Core_baked {α : Type} [Field α] (lg sq : α → α) (a : Alphabet)
    (junk : α) (f : Fast5Model α) (k : Nat) :
    bake_gaussian_parameters lg sq (fromFast5Core lg sq a junk f k)
      = fromFast5Core lg sq a junk f k := by
  simp only [fromFast5Core]
  rw [bake_name_update, bake_idem]

/-- Claim C8 (amended): every model built by the fast5 constructor has
`shift_offset = 0`, is baked at the end of construction (`is_scaled` is
set and re-baking is a no-op), and carries the name `derive_name` of the
container's recorded path: drop the first `leader.size()` characters when
the leader occurs ANYWHERE in the path (which equals prefix-stripping only
when the occurrence is at position 0), else the path verbatim, then every
`/` replaced by `_`. -/
theorem fromFast5_construction {α : Type} [Field α] (lg sq : α → α) (a : Alphabet)
    (junk : α) (f : Fast5Model α) (m : PoreModel α)
    (h : fromFast5 lg sq a junk f = some m) :
    m.shift_offset = 0 ∧ m.is_scaled = true
  ∧ bake_gaussian_parameters lg sq m = m
  ∧ m.name = derive_name f.model_file := by
  obtain ⟨k, rfl⟩ := fromFast5_eq_core lg sq a junk f m h
  refine ⟨rfl, rfl, fromFast5Core_baked lg sq a junk f k, rfl⟩

/-- Witness for C8: the fast5 constructor succeeds on the concrete
container `fW2` and the constructed model `mF2` satisfies the amended
contract. -/
theorem fromFast5_construction_witness :
    mF2.shift_offset = 0 ∧ mF2.is_scaled = true
  ∧ bake_gaussian_parameters (fun x => x) (fun x => x) mF2 = mF2
  ∧ mF2.name = derive_name fW2.model_file :=
  fromFast5_construction (fun x => x) (fun x => x) dnaAlphabet 0 fW2 mF2 rfl

/-- Counterexample to C8 as stated: for the path
`/x/opt/chimaera/model/r9`, in which the leader occurs midway but not as a
prefix, the constructor produces the name `l_r9` (the first 20 characters
are dropped blindly), whereas prefix-stripping-or-verbatim would give
`_x_opt_chimaera_model_r9`. -/
theorem fromFast5_name_cex :
    (fromFast5 (fun x => x) (fun x => x) dnaAlphabet (0 : ℚ) f0).map (fun m => m.name)
      = some "l_r9"
  ∧ spec_model_name f0.model_file = "_x_opt_chimaera_model_r9"
  ∧ ("l_r9" : String) ≠ "_x_opt_chimaera_model_r9" := by
  refine ⟨by decide, by decide, by decide⟩

theorem bakeBase_self_mom {α : Type} [Field α] (s : PoreModelStateParams α) :
    (bakeBase s).sd_lambda = (bakeBase s).sd_mean ^ 3 / (bakeBase s).sd_stdv ^ 2 := by
  cases s; rfl

/-- Claim C2 (amended): the method-of-moments invariant
`sd_lambda[i] = sd_mean[i]^3 / sd_stdv[i]^2` holds for every rank after
every `bake()` — hence immediately after container construction, which
bakes — but NOT after text construction: the text constructor never calls
`bake` and never writes `sd_lambda` (see the counterexample), so the
invariant there depends on the indeterminate initial member value. -/
theorem sd_lambda_method_of_moments {α : Type} [Field α] :
    (∀ (lg sq : α → α) (m : PoreModel α) (i : Nat),
      (((bake_gaussian_parameters lg sq m).states[i]?).map (fun s => s.sd_lambda))
        = ((m.states[i]?).map (fun s => s.sd_mean ^ 3 / s.sd_stdv ^ 2)))
  ∧ (∀ (lg sq : α → α) (a : Alphabet) (junk : α) (f : Fast5Model α) (m : PoreModel α),
      fromFast5 lg sq a junk f = some m →
      ∀ i : Nat,
        ((m.states[i]?).map (fun s => s.sd_lambda))
          = ((m.states[i]?).map (fun s => s.sd_mean ^ 3 / s.sd_stdv ^ 2))) := by
  constructor
  · intro lg sq m i
    cases h : m.states[i]? <;>
      simp [bake_gaussian_parameters, List.getElem?_map, h, bakeBase]
  · intro lg sq a junk f m h i
    obtain ⟨k, rfl⟩ := fromFast5_eq_core lg sq a junk f m h
    have hms : (fromFast5Core lg sq a junk f k).states
        = (fast5States a junk f k).map bakeBase := rfl
    rw [hms]
    cases hL : (fast5States a junk f k)[i]? <;>
      simp [List.getElem?_map, hL, bakeBase_self_mom]

/-- Witness for C2: the model constructed from the concrete container
`fW2` satisfies the method-of-moments invariant at rank 0. -/
theorem sd_lambda_method_of_moments_witness :
    ((mF2.states[0]?).map (fun s => s.sd_lambda))
      = ((mF2.states[0]?).map (fun s => s.sd_mean ^ 3 / s.sd_stdv ^ 2)) :=
  sd_lambda_method_of_moments.2 (fun x => x) (fun x => x) dnaAlphabet 0 fW2 mF2 rfl 0

/-- Claim C4 (amended): `update_states(other)` takes `k` from the
replacing table, additively folds the replacing table's `shift_offset`
into the current `shift` coefficient, installs the new base table, and
re-bakes exactly when the model was previously baked (so `is_scaled` is
preserved); but the model's own stored `shift_offset` field is left
unchanged — the replacing table's `shift_offset` is not installed. -/
theorem update_states_behavior {α : Type} [Field α] (lg sq : α → α)
    (m other : PoreModel α) :
    (update_states lg sq m other).k = other.k
  ∧ (update_states lg sq m other).shift = m.shift + other.shift_offset
  ∧ (update_states lg sq m other).shift_offset = m.shift_offset
  ∧ (update_states lg sq m other).is_scaled = m.is_scaled
  ∧ update_states lg sq m other
      = (if m.is_scaled
         then bake_gaussian_parameters lg sq
           { m with k := other.k, shift := m.shift + other.shift_offset
                  , states := other.states }
         else { m with k := other.k, shift := m.shift + other.shift_offset
                     , states := other.states }) := by
  by_cases h : m.is_scaled = true <;>
    simp [update_states, update_states_list, bake_gaussian_parameters, h]

/-- Counterexample to C4 as stated: replacing with a table whose
`shift_offset = 5` while the model's stored `shift_offset = 3` leaves the
model's `shift_offset` at 3 — it is not swapped to the replacing table's
value. -/
theorem update_states_shift_offset_cex :
    (update_states (fun x => x) (fun x => x) m4 o4).shift_offset = 3
  ∧ o4.shift_offset = 5
  ∧ (update_states (fun x => x) (fun x => x) m4 o4).shift_offset ≠ o4.shift_offset := by
  refine ⟨rfl, rfl, ?_⟩
  have h1 : (update_states (fun x => x) (fun x => x) m4 o4).shift_offset = 3 := rfl
  have h2 : o4.shift_offset = 5 := rfl
  rw [h1, h2]
  norm_num
